import Mathlib

/-!
Verification of the Enarx lind-wasm cage runtime
(`crates/exec-wasmtime/src/runtime/mod.rs`, `crates/exec-wasmtime/src/workload.rs`).

The development shallowly embeds the runtime's data model and control flow:
Wasm values and value types, the Enarx keep configuration, the exec-closure
argument rewrite, the host context and its partial-deep-clone `fork`, the
epilogue of `Runtime::execute` (exit-code extraction, last-thread check, cage
exit syscall, cage-manager decrement), `Runtime::load_main_module`,
`Runtime::invoke_func`, and the `TryFrom<Package> for Workload` conversion.
Shared reference-counted state (`Arc`) is modelled with explicit cells in a
small world/heap, so that aliasing and deep-copy independence are provable.
External library behaviour (string parsing, the Wasm engine's function call)
enters as oracle parameters; everything the repository's own code does is
translated directly.
-/

namespace Enarx

/-- Wasm values as used by the runtime (`wasmtime::Val`): 32/64-bit integers,
float bit patterns, and the null function reference used as the placeholder
result value in `invoke_func`. -/
inductive Val where
  | I32 : Int → Val
  | I64 : Int → Val
  | F32 : Nat → Val
  | F64 : Nat → Val
  | nullFuncRef : Val
  deriving DecidableEq, Repr

/-- Wasm value types (`wasmtime::ValType`); `other` stands for every type that
`invoke_func` does not support for textual invocation (references, v128, ...). -/
inductive ValType where
  | i32 | i64 | f32 | f64 | other
  deriving DecidableEq, Repr

/-- The Enarx keep configuration (`enarx_config::Config`). The field names are
exactly the ones destructured by `Runtime::execute`: `steward`, `args`,
`files`, `env`. Modelled from the spec: the `Config` struct itself lives in
the external `enarx-config` crate; `files` and `env` entries are kept abstract
as strings since the runtime never inspects them. -/
structure Config where
  steward : Option String
  args : List String
  files : List String
  env : List String
  deriving DecidableEq, Repr

/-- `Default::default()` for `Config`: every field empty/absent.
Modelled from the spec: the derive lives in the external `enarx-config` crate. -/
def Config.default : Config :=
  { steward := none, args := [], files := [], env := [] }

/-- The argument-vector rewrite performed inside the exec closure:
`args.get(1..).map_or(vec![], |s| s.to_vec())` — the slice from index 1 when
it exists (`args` nonempty), otherwise the empty vector. -/
def execArgsRewrite (args : List String) : List String :=
  match args with
  | [] => []
  | _ :: rest => rest

/-- The configuration built by the exec closure passed to `LindCtx::new` /
`LindCtx::new_with_pid` (runtime/mod.rs lines 227–232 and 406–411):
clone the captured `enarx_conf`, insert a default `Config` when it is `None`
(`get_or_insert_with`, with `args` explicitly empty), then overwrite its
`args` field with the exec call's own arguments minus the first element. -/
def execNewConf (enarx_conf : Option Config) (args : List String) : Config :=
  let conf := enarx_conf.getD { Config.default with args := [] }
  { conf with args := execArgsRewrite args }

/-- Claim C1: for every exec call with raw argument vector `args` and every
prior configuration (including `None`, for which a default is synthesized
first), the configuration handed to the re-launched program has `args` equal
to the exec call's `args` with its first element removed — the empty vector
when `args` has at most one element — regardless of the prior
configuration's own `args`. -/
theorem c1_exec_args_rewrite (enarx_conf : Option Config) (args : List String) :
    (execNewConf enarx_conf args).args = args.drop 1 ∧
      (args.length ≤ 1 → (execNewConf enarx_conf args).args = []) := by
  constructor
  · cases args <;> rfl
  · intro h
    cases args with
    | nil => rfl
    | cons a rest =>
      cases rest with
      | nil => rfl
      | cons b rest' => simp at h

/-- Witness for C1 at a concrete input: exec with raw arguments
`["prog", "a", "b"]` over a prior configuration that held `args = ["old"]`
yields `args = ["a", "b"]`; and a one-element raw vector yields `[]`. -/
theorem c1_exec_args_rewrite_witness :
    (execNewConf (some { Config.default with args := ["old"] }) ["prog", "a", "b"]).args
        = ["a", "b"] ∧
      (execNewConf none ["prog"]).args = [] := by
  refine ⟨?_, ?_⟩
  · exact (c1_exec_args_rewrite (some { Config.default with args := ["old"] })
      ["prog", "a", "b"]).1
  · exact (c1_exec_args_rewrite none ["prog"]).2 (by decide)

/-- The type of a Wasm function (`wasmtime::FuncType`): declared parameter
types and declared result types, as read by `func.ty(&store)`. -/
structure FuncTy where
  params : List ValType
  results : List ValType
  deriving DecidableEq, Repr

/-- A callable exported Wasm function (`wasmtime::Func`): its type together
with an oracle for `func.call` — the engine either fills the result slots
(success, `.ok filled`) or traps with an error message (`.error`). The call
itself is external engine behaviour, so it is a parameter, not a model. -/
structure FuncSpec where
  fty : FuncTy
  call : List Val → Except String (List Val)

/-- Oracles for Rust's `str::parse` at the four numeric types used by
`invoke_func` (`parse::<i32>`, `parse::<i64>`, `parse::<f32>().to_bits()`,
`parse::<f64>().to_bits()`): `none` models a parse failure. Standard-library
string parsing is external to this repository, so it enters as a parameter. -/
structure Parsers where
  parseI32 : String → Option Int
  parseI64 : String → Option Int
  parseF32 : String → Option Nat
  parseF64 : String → Option Nat

/-- The error cases of `invoke_func` before the call is made:
`anyhow!("not enough arguments for invoke")`, a `parse` failure propagated by
`?`, and `bail!("unsupported argument type ...")`. -/
inductive InvokeError where
  | notEnoughArguments
  | parseError
  | unsupportedType
  deriving DecidableEq, Repr

/-- Observable events of one `invoke_func` run: the one-time experimental
warning printed when the function takes parameters, and the actual engine
call with the marshalled values. -/
inductive InvokeEvent where
  | warned
  | called (values : List Val)
  deriving DecidableEq

/-- One iteration of the marshalling loop body of `invoke_func`: dispatch on
the parameter type, parse the textual argument, wrap in the matching `Val`
constructor, or `bail!` on an unsupported type. -/
def parseVal (p : Parsers) (ty : ValType) (s : String) : Except InvokeError Val :=
  match ty with
  | .i32 =>
    match p.parseI32 s with
    | some n => .ok (.I32 n)
    | none => .error .parseError
  | .i64 =>
    match p.parseI64 s with
    | some n => .ok (.I64 n)
    | none => .error .parseError
  | .f32 =>
    match p.parseF32 s with
    | some b => .ok (.F32 b)
    | none => .error .parseError
  | .f64 =>
    match p.parseF64 s with
    | some b => .ok (.F64 b)
    | none => .error .parseError
  | .other => .error .unsupportedType

/-- The marshalling loop of `invoke_func`: for each declared parameter type,
take the next textual argument (`args.next().ok_or_else(...)?` — argument-count
error when the iterator is exhausted) and parse it with `parseVal`; extra
textual arguments beyond the parameter count are ignored. -/
def parseArgs (p : Parsers) : List ValType → List String → Except InvokeError (List Val)
  | [], _ => .ok []
  | _ :: _, [] => .error .notEnoughArguments
  | ty :: tys, s :: rest =>
    match parseVal p ty s with
    | .error e => .error e
    | .ok v => (parseArgs p tys rest).map (v :: ·)

/-- `Runtime::invoke_func` (runtime/mod.rs lines 497–528). Returns the
function's result (never `.error` once marshalling succeeded: the value of
`func.call(...).with_context(...)` is dropped — there is no `?` — so a trapped
call leaves the placeholder vector `vec![Val::null_func_ref(); ty.results().len()]`
in place and `Ok(results)` is returned regardless), paired with the run's
event trace. -/
def invoke_func (p : Parsers) (f : FuncSpec) (args : List String) :
    Except InvokeError (List Val) × List InvokeEvent :=
  let warn : List InvokeEvent := if f.fty.params.length > 0 then [.warned] else []
  match parseArgs p f.fty.params args with
  | .error e => (.error e, warn)
  | .ok values =>
    let placeholders := List.replicate f.fty.results.length Val.nullFuncRef
    let results :=
      match f.call values with
      | .ok filled => filled
      | .error _ => placeholders
    (.ok results, warn ++ [.called values])

/-- Outcome of `Runtime::load_main_module`: a Rust panic (an `unwrap`/`expect`
that fires, never returned to the caller), an `Err` propagated by `?`, or the
successful result vector. -/
inductive LoadResult where
  | panicked (msg : String)
  | err (msg : String)
  | ok (vals : List Val)
  deriving Repr

/-- The observable shape of one instantiated module, as `load_main_module`
probes it: whether `instantiate_with_lind` succeeds, the `_initialize` export
(`none` if absent, otherwise whether its typed no-arg call succeeds), the
exports under the names `""` and `"_start"`, whether the stack-low and
stack-pointer exports resolve (`unwrap`ped), and whether the `epoch` global
export is present (`expect`ed). The engine-side lookups are external
behaviour, so they enter as fields of this record. -/
structure Instance where
  instantiateOk : Bool
  initFunc : Option Bool
  funcEmpty : Option FuncSpec
  funcStart : Option FuncSpec
  stackLowOk : Bool
  stackPointerOk : Bool
  hasEpoch : Bool

/-- `Runtime::load_main_module` (runtime/mod.rs lines 440–493): instantiate;
call `_initialize` if present; resolve the entry as the `""` export or else
the `"_start"` export; `unwrap` the stack bounds; `expect` the `epoch` global
(panic `"Failed to find epoch global export!"` when absent); register the
signal cell; then invoke the entry via `invoke_func` when one was found,
otherwise return `Ok(vec![])`. -/
def load_main_module (inst : Instance) (p : Parsers) (args : List String) : LoadResult :=
  if !inst.instantiateOk then .err "failed to instantiate"
  else
    match inst.initFunc with
    | some false => .err "_initialize call failed"
    | _ =>
      let func := inst.funcEmpty.orElse (fun _ => inst.funcStart)
      if !inst.stackLowOk then .panicked "get_stack_low unwrap"
      else if !inst.stackPointerOk then .panicked "get_stack_pointer unwrap"
      else if !inst.hasEpoch then .panicked "Failed to find epoch global export!"
      else
        match func with
        | some f =>
          match (invoke_func p f args).1 with
          | .ok vals => .ok vals
          | .error _ => .err "invoke error"
        | none => .ok []

/-- The observable events of the success epilogue of `Runtime::execute`
(runtime/mod.rs lines 261–280): the cage's own exit syscall
(`lind_syscall_api(1, EXIT_SYSCALL, ..., code, ...)`) and the cage-manager
decrement (`lind_manager.decrement()`). -/
inductive Event where
  | exitSyscall (code : Int)
  | decrement
  deriving DecidableEq, Repr

/-- Outcome of the tail of `Runtime::execute` after `load_main_module`
returned: a panic at `res.get(0).unwrap()`, or completion with the trace of
cage-exit events, or the `Err` branch through `maybe_exit_on_error`. -/
inductive ExecOutcome where
  | panicked
  | completed (trace : List Event) (vals : List Val)
  | failed (msg : String)
  deriving Repr

/-- The exit code `Runtime::execute` extracts from the result vector:
`code = 0`, overwritten by the payload of `res[0]` only when it is `I32`. -/
def extractedCode (res : List Val) : Int :=
  match res.get? 0 with
  | some (.I32 n) => n
  | _ => 0

/-- The tail of `Runtime::execute` (runtime/mod.rs lines 261–289):
on `Ok(res)` it unwraps `res.get(0)` (panicking when the vector is empty),
extracts the exit code, asks `lind_thread_exit` whether this was the cage's
last thread (`lastThread`), and only in that case issues the cage's exit
syscall with the code followed by the cage-manager decrement; on `Err` it
returns through `maybe_exit_on_error`. -/
def executeTail (lastThread : Bool) (result : Except String (List Val)) : ExecOutcome :=
  match result with
  | .error e => .failed e
  | .ok res =>
    match res.get? 0 with
    | none => .panicked
    | some _ =>
      let code := extractedCode res
      if lastThread then .completed [.exitSyscall code, .decrement] res
      else .completed [] res

/-- The WASI preview1 context's per-process view (`wasi_common::WasiCtx`):
argument vector and environment. Modelled from the spec: the struct lives in
the external `wasi_common` crate; the runtime's own comments and the spec
state that `ctx.fork()` deep-copies this per-process view (argv/environment),
which the heap model below realises as a fresh cell. -/
structure Preview1Ctx where
  args : List String
  env : List (String × String)
  deriving DecidableEq, Repr, Inhabited

/-- The lind-common per-cage state (`LindCommonCtx`): the cage id and the
shared next-cage-identity allocator it holds (as a reference id into the
allocator heap). Modelled from the spec: the struct lives in the external
`wasmtime-lind-common` crate; `new`/`new_with_pid` store the allocator handle
they are given, `fork` deep-copies the per-cage state. -/
structure LindCommonCtxData where
  pid : Int
  next_cageid : Nat
  deriving DecidableEq, Repr, Inhabited

/-- The lind multi-process fork/exec state (`LindCtx`): the cage id and the
shared next-cage-identity allocator handle it was constructed with. Modelled
from the spec: the struct lives in the external `wasmtime-lind-multi-process`
crate; only the fields the claims mention are kept. -/
structure LindForkCtxData where
  pid : Int
  next_cageid : Nat
  deriving DecidableEq, Repr, Inhabited

/-- `LindCommonCtx::new_with_pid(pid, next_cageid)`: a freshly constructed
per-cage common state holding exactly the given cage id and the given shared
allocator handle. Modelled from the spec. -/
def LindCommonCtxData.new_with_pid (pid : Int) (next_cageid : Nat) : LindCommonCtxData :=
  { pid := pid, next_cageid := next_cageid }

/-- The allocator-handle part of `LindCtx::new_with_pid(..., pid, next_cageid, ...)`.
Modelled from the spec. -/
def LindForkCtxData.new_with_pid (pid : Int) (next_cageid : Nat) : LindForkCtxData :=
  { pid := pid, next_cageid := next_cageid }

/-- The heap of reference-counted / owned context objects. Rust object
identity is modelled by an index into the respective cell list: `Arc::clone`
keeps the index, a deep copy (`ctx.fork()`) appends a fresh cell. -/
structure World where
  preview1Cells : List Preview1Ctx
  commonCells : List LindCommonCtxData
  forkCells : List LindForkCtxData
  deriving Repr

/-- `HostCtx` (runtime/mod.rs lines 38–44): the per-cage aggregate of
capability state. Each `Option Nat` field is the Rust `Option<...>` holding a
reference into the corresponding `World` heap; `wasi_threads` is the
`Option<Arc<WasiThreadsCtx>>` handle (an identity, since the thread pool's
contents never matter to the claims). -/
structure HostCtx where
  preview1_ctx : Option Nat
  wasi_threads : Option Nat
  lind_common_ctx : Option Nat
  lind_fork_ctx : Option Nat
  deriving DecidableEq, Repr

/-- `HostCtx::fork` (runtime/mod.rs lines 61–91): a partial deep clone.
`preview1_ctx`, `lind_fork_ctx` and `lind_common_ctx` are forked — each
`Some` cell is deep-copied into a fresh cell, `None` stays `None` — while
`wasi_threads` is shared by `Arc` clone (the same handle). Returns the child
together with the grown heap. -/
def HostCtx.fork (h : HostCtx) (w : World) : HostCtx × World :=
  let (forked_preview1_ctx, preview1Cells) :=
    match h.preview1_ctx with
    | some i =>
      (some w.preview1Cells.length, w.preview1Cells ++ [w.preview1Cells.getD i default])
    | none => (none, w.preview1Cells)
  let (forked_lind_fork_ctx, forkCells) :=
    match h.lind_fork_ctx with
    | some i => (some w.forkCells.length, w.forkCells ++ [w.forkCells.getD i default])
    | none => (none, w.forkCells)
  let (forked_lind_common_ctx, commonCells) :=
    match h.lind_common_ctx with
    | some i => (some w.commonCells.length, w.commonCells ++ [w.commonCells.getD i default])
    | none => (none, w.commonCells)
  ({ preview1_ctx := forked_preview1_ctx,
     lind_fork_ctx := forked_lind_fork_ctx,
     lind_common_ctx := forked_lind_common_ctx,
     wasi_threads := h.wasi_threads },
   { preview1Cells := preview1Cells, commonCells := commonCells, forkCells := forkCells })

/-- Read the argument vector stored in preview1 cell `i`. -/
def World.preview1Args (w : World) (i : Nat) : Option (List String) :=
  (w.preview1Cells.get? i).map Preview1Ctx.args

/-- Overwrite the argument vector stored in preview1 cell `i` (the mutation
the fork-independence property quantifies over). -/
def World.setPreview1Args (w : World) (i : Nat) (as : List String) : World :=
  { w with
    preview1Cells :=
      w.preview1Cells.set i { w.preview1Cells.getD i default with args := as } }

/-- The heap of atomic cage-identity allocators (`Arc<AtomicU64>`): the index
is the Rust object identity (`Arc::clone` keeps it, `Arc::new` appends), the
stored `Nat` is the counter's current value. -/
structure AllocWorld where
  allocators : List Nat
  deriving DecidableEq, Repr

/-- `Arc::new(AtomicU64::new(init))`: allocate a fresh counter with the given
initial value and return its handle together with the grown heap. -/
def AllocWorld.fresh (w : AllocWorld) (init : Nat) : Nat × AllocWorld :=
  (w.allocators.length, ⟨w.allocators ++ [init]⟩)

/-- The reserved starting cage identity (`CAGE_START_ID`). Modelled from the
spec: the constant lives in the external `wasmtime-lind-multi-process` crate;
the initial cage is "created at initial launch with a reserved starting
identity" and the allocator of subsequent identities starts at 1. -/
def CAGE_START_ID : Int := 1

/-- `LindCommonCtx::new(next_cageid)`: the initial-launch constructor, which
takes only the shared allocator and assigns the reserved starting cage id
itself. Modelled from the spec. -/
def LindCommonCtxData.new (next_cageid : Nat) : LindCommonCtxData :=
  { pid := CAGE_START_ID, next_cageid := next_cageid }

/-- The lind context wiring built by `execute` / `execute_with_lind`: the
per-cage common state, the fork/exec state, and the handle of the
`Arc::new(AtomicU64::new(1))` allocator created inside the function body. -/
structure LindSetup where
  lind_common_ctx : LindCommonCtxData
  lind_fork_ctx : LindForkCtxData
  shared_next_cageid : Nat
  deriving DecidableEq, Repr

/-- The lind-context wiring of `Runtime::execute` (runtime/mod.rs lines
196–243): create `shared_next_cageid = Arc::new(AtomicU64::new(1))`, attach
`LindCommonCtx::new(shared_next_cageid.clone())` and
`LindCtx::new(..., shared_next_cageid.clone(), ...)` — both contexts hold the
one freshly created allocator. -/
def execute_setup (w : AllocWorld) : LindSetup × AllocWorld :=
  let (shared_next_cageid, w') := w.fresh 1
  ({ lind_common_ctx := LindCommonCtxData.new shared_next_cageid,
     lind_fork_ctx := { pid := CAGE_START_ID, next_cageid := shared_next_cageid },
     shared_next_cageid := shared_next_cageid },
   w')

/-- The lind-context wiring of `Runtime::execute_with_lind` (runtime/mod.rs
lines 370–422): a `shared_next_cageid = Arc::new(AtomicU64::new(1))` is
created (and then never used), while
`LindCommonCtx::new_with_pid(pid, next_cageid.clone())` and
`LindCtx::new_with_pid(..., pid, next_cageid.clone(), ...)` are constructed
from the `pid` and `next_cageid` parameters passed in by the caller. -/
def execute_with_lind_setup (pid : Int) (next_cageid : Nat) (w : AllocWorld) :
    LindSetup × AllocWorld :=
  let (shared_next_cageid, w') := w.fresh 1
  ({ lind_common_ctx := LindCommonCtxData.new_with_pid pid next_cageid,
     lind_fork_ctx := LindForkCtxData.new_with_pid pid next_cageid,
     shared_next_cageid := shared_next_cageid },
   w')

/-- The argument tuple the exec closure passes to `Runtime::execute_with_lind`
(runtime/mod.rs lines 234–240 and 413–419): the rewritten configuration, and
the closure's own `pid` and `next_cageid` parameters forwarded unchanged. -/
structure ExecCall where
  config : Option Config
  pid : Int
  next_cageid : Nat
  deriving DecidableEq, Repr

/-- The exec closure handed to `LindCtx::new` / `LindCtx::new_with_pid`
(runtime/mod.rs lines 217–241 and 396–420), restricted to the data it passes
on: it rewrites the configuration with `execNewConf` and forwards `pid` and
`next_cageid` to `execute_with_lind` unchanged. -/
def execClosure (enarx_conf : Option Config) (args : List String) (pid : Int)
    (next_cageid : Nat) : ExecCall :=
  { config := some (execNewConf enarx_conf args), pid := pid, next_cageid := next_cageid }

/-- `Workload` (workload.rs lines 116–122): the acquired module bytes
(represented by their byte count, since `read_to_end` is content-agnostic)
and the optional parsed configuration. -/
structure Workload where
  webasmSize : Nat
  config : Option Config
  deriving DecidableEq, Repr

/-- An open configuration file as `try_from` consumes it: its byte count and
the outcome of `toml::from_slice` on its contents (`none` = parse failure).
TOML parsing is external library behaviour, so it enters as data. -/
structure ConfSource where
  size : Nat
  parsed : Option Config
  deriving DecidableEq, Repr

/-- Maximum size of WASM module in bytes (workload.rs line 24). -/
def MAX_WASM_SIZE : Nat := 100000000

/-- Maximum size of Enarx.toml in bytes (workload.rs line 26). -/
def MAX_CONF_SIZE : Nat := 1000000

/-- `TryFrom<Package> for Workload` on a local package (workload.rs lines
124–161): `read_to_end` the module bytes, then, when a configuration file
descriptor is present, `read_to_end` and `toml::from_slice` it (an `Err` when
parsing fails). No size comparison appears anywhere on this path. -/
def Workload.try_from (wasmSize : Nat) (conf : Option ConfSource) : Except String Workload :=
  match conf with
  | some c =>
    match c.parsed with
    | some cfg => .ok { webasmSize := wasmSize, config := some cfg }
    | none => .error "failed to parse config"
  | none => .ok { webasmSize := wasmSize, config := none }

/-- Parser oracles that reject every string; enough for functions without
parameters and for arity counterexamples. -/
def nullParsers : Parsers :=
  { parseI32 := fun _ => none, parseI64 := fun _ => none,
    parseF32 := fun _ => none, parseF64 := fun _ => none }

/-- A parameterless function with one declared `i32` result whose engine call
traps. -/
def trapFunc : FuncSpec :=
  { fty := { params := [], results := [.i32] }, call := fun _ => .error "wasm trap" }

/-- An instantiated module with no `_initialize` export, no `""` export and no
`"_start"` export, whose other load preconditions (instantiation, stack
bounds, epoch global) all hold. -/
def noEntryInst : Instance :=
  { instantiateOk := true, initFunc := none, funcEmpty := none, funcStart := none,
    stackLowOk := true, stackPointerOk := true, hasEpoch := true }

/-- Claim C2 (code-bug evidence): when the engine call itself fails,
`invoke_func` does not surface the failure — the `Result` of
`func.call(...).with_context(...)` is dropped (no `?`), so the function
returns `Ok` with the untouched placeholder vector (one placeholder per
declared result), and the trace shows the call was made. -/
theorem c2_call_failure_swallowed :
    (invoke_func nullParsers trapFunc []).1 = Except.ok [Val.nullFuncRef] ∧
      (invoke_func nullParsers trapFunc []).2 = [InvokeEvent.called []] :=
  ⟨rfl, rfl⟩

/-- Claim C3: if `load_main_module` returns successfully with an empty result
vector (as it does for a module with no entry-point export), the tail of
`Runtime::execute` panics at `res.get(0).unwrap()` instead of completing,
whatever the last-thread observation returns. -/
theorem c3_empty_result_vector_panics (inst : Instance) (p : Parsers)
    (args : List String) (lastThread : Bool)
    (_h : load_main_module inst p args = LoadResult.ok []) :
    executeTail lastThread (Except.ok []) = ExecOutcome.panicked :=
  rfl

/-- Witness for C3: the no-entry-point module makes `load_main_module` return
`Ok(vec![])`, and the execute tail then panics. -/
theorem c3_empty_result_vector_panics_witness :
    executeTail true (Except.ok []) = ExecOutcome.panicked :=
  c3_empty_result_vector_panics noEntryInst nullParsers [] true rfl

/-- Claim C4: a module with neither an `_initialize` export nor an entry
export under `""` or `"_start"`, satisfying the other load preconditions,
makes `load_main_module` return an empty successful result list, not an
error. -/
theorem c4_missing_entry_point_ok (inst : Instance) (p : Parsers) (args : List String)
    (h1 : inst.instantiateOk = true) (h2 : inst.initFunc = none)
    (h3 : inst.funcEmpty = none) (h4 : inst.funcStart = none)
    (h5 : inst.stackLowOk = true) (h6 : inst.stackPointerOk = true)
    (h7 : inst.hasEpoch = true) :
    load_main_module inst p args = LoadResult.ok [] := by
  simp [load_main_module, h1, h2, h3, h4, h5, h6, h7, Option.orElse]

/-- Witness for C4 at a concrete module shape. -/
theorem c4_missing_entry_point_ok_witness :
    load_main_module noEntryInst nullParsers ["x"] = LoadResult.ok [] :=
  c4_missing_entry_point_ok noEntryInst nullParsers ["x"] rfl rfl rfl rfl rfl rfl rfl

/-- Claim C7: on the success path of `Runtime::execute`, the cage-manager
counter is decremented at most once; a decrement happens only when the
last-thread observation returned `true`, and in that case the trace is
exactly the cage's exit syscall carrying the extracted exit code followed by
the decrement — the syscall strictly precedes the decrement; when the
observation returns `false` no decrement occurs. -/
theorem c7_last_thread_exit_ordering (lastThread : Bool) (res : List Val)
    (trace : List Event) (vals : List Val)
    (h : executeTail lastThread (Except.ok res) = ExecOutcome.completed trace vals) :
    trace.count Event.decrement ≤ 1 ∧
      (Event.decrement ∈ trace →
        lastThread = true ∧
          trace = [Event.exitSyscall (extractedCode res), Event.decrement]) ∧
      (lastThread = false → Event.decrement ∉ trace) := by
  cases res with
  | nil => simp [executeTail] at h
  | cons v rest =>
    cases lastThread with
    | true =>
      rw [show executeTail true (Except.ok (v :: rest)) =
          ExecOutcome.completed
            [Event.exitSyscall (extractedCode (v :: rest)), Event.decrement]
            (v :: rest) from rfl] at h
      injection h with ht hv
      subst ht
      refine ⟨?_, fun _ => ⟨rfl, rfl⟩, fun hfalse => by simp at hfalse⟩
      simp [List.count_cons, List.count_nil]
    | false =>
      rw [show executeTail false (Except.ok (v :: rest)) =
          ExecOutcome.completed [] (v :: rest) from rfl] at h
      injection h with ht hv
      subst ht
      exact ⟨by simp, fun hmem => absurd hmem (by simp), fun _ => by simp⟩

/-- Witness for C7: a last-thread exit with result vector `[I32 7]` completes
with the trace `[exitSyscall 7, decrement]`, satisfying every conjunct. -/
theorem c7_last_thread_exit_ordering_witness :
    ([Event.exitSyscall 7, Event.decrement].count Event.decrement ≤ 1) ∧
      [Event.exitSyscall (7 : Int), Event.decrement]
        = [Event.exitSyscall (extractedCode [Val.I32 7]), Event.decrement] := by
  have h := c7_last_thread_exit_ordering true [Val.I32 7]
    [Event.exitSyscall 7, Event.decrement] [Val.I32 7] rfl
  exact ⟨h.1, ((h.2.1 (by simp)).2 ▸ rfl)⟩

/-- Claim C9 (counterexample): a local package whose WASM module is one byte
over `MAX_WASM_SIZE` still converts successfully — `try_from` performs no
size check at all. -/
theorem c9_oversized_module_accepted :
    Workload.try_from (MAX_WASM_SIZE + 1) none
        = Except.ok { webasmSize := MAX_WASM_SIZE + 1, config := none } ∧
      MAX_WASM_SIZE + 1 > MAX_WASM_SIZE :=
  ⟨rfl, Nat.lt_succ_self _⟩

/-- Claim C9 (amended): converting a local `Package` into a `Workload`
enforces no size limit — it succeeds for a module and configuration of any
size (the configuration merely has to parse, or be absent); the
`MAX_WASM_SIZE` / `MAX_CONF_SIZE` constants are never consulted on this
path. -/
theorem c9_conversion_ignores_sizes (wasmSize confSize : Nat) (c : Config) :
    Workload.try_from wasmSize none = Except.ok { webasmSize := wasmSize, config := none } ∧
      Workload.try_from wasmSize (some { size := confSize, parsed := some c })
        = Except.ok { webasmSize := wasmSize, config := some c } :=
  ⟨rfl, rfl⟩

/-- The child of a fork holds the parent's thread-pool handle unchanged
(`wasi_threads: self.wasi_threads.clone()` — an `Arc` clone, same referent). -/
theorem fork_wasi_threads (h : HostCtx) (w : World) :
    (h.fork w).1.wasi_threads = h.wasi_threads := by
  unfold HostCtx.fork
  cases h.preview1_ctx <;> cases h.lind_fork_ctx <;> cases h.lind_common_ctx <;> rfl

/-- The child's preview1 reference: a fresh cell (the old heap's length) when
the parent had one, `None` otherwise. -/
theorem fork_preview1_ref (h : HostCtx) (w : World) :
    (h.fork w).1.preview1_ctx = h.preview1_ctx.map (fun _ => w.preview1Cells.length) := by
  unfold HostCtx.fork
  cases h.preview1_ctx <;> cases h.lind_fork_ctx <;> cases h.lind_common_ctx <;> rfl

/-- The child's lind-common reference: fresh cell when present, else `None`. -/
theorem fork_common_ref (h : HostCtx) (w : World) :
    (h.fork w).1.lind_common_ctx = h.lind_common_ctx.map (fun _ => w.commonCells.length) := by
  unfold HostCtx.fork
  cases h.preview1_ctx <;> cases h.lind_fork_ctx <;> cases h.lind_common_ctx <;> rfl

/-- The child's lind-fork reference: fresh cell when present, else `None`. -/
theorem fork_fork_ref (h : HostCtx) (w : World) :
    (h.fork w).1.lind_fork_ctx = h.lind_fork_ctx.map (fun _ => w.forkCells.length) := by
  unfold HostCtx.fork
  cases h.preview1_ctx <;> cases h.lind_fork_ctx <;> cases h.lind_common_ctx <;> rfl

/-- When the parent's preview1 context is present, forking appends a copy of
its cell to the preview1 heap. -/
theorem fork_preview1_cells (h : HostCtx) (w : World) (i : Nat)
    (hp : h.preview1_ctx = some i) :
    (h.fork w).2.preview1Cells = w.preview1Cells ++ [w.preview1Cells.getD i default] := by
  unfold HostCtx.fork
  rw [hp]

/-- Claim C6: `HostCtx::fork` returns for every parent (it is a total
function, also on uninitialized contexts), and each of the child's
`preview1_ctx`, `lind_common_ctx` and `lind_fork_ctx` fields is present
exactly when the parent's is: `Some` forks to `Some`, `None` propagates to
`None`. -/
theorem c6_fork_presence (h : HostCtx) (w : World) :
    ((h.fork w).1.preview1_ctx.isSome = h.preview1_ctx.isSome) ∧
      ((h.fork w).1.lind_common_ctx.isSome = h.lind_common_ctx.isSome) ∧
      ((h.fork w).1.lind_fork_ctx.isSome = h.lind_fork_ctx.isSome) := by
  refine ⟨?_, ?_, ?_⟩
  · rw [fork_preview1_ref]; cases h.preview1_ctx <;> rfl
  · rw [fork_common_ref]; cases h.lind_common_ctx <;> rfl
  · rw [fork_fork_ref]; cases h.lind_fork_ctx <;> rfl

/-- Claim C5: after `fork(parent)` the child's thread-pool handle is
reference-identical to the parent's, while the identity-affecting sub-states
are independent copies: the child's preview1 state lives in a fresh cell, so
overwriting the child's argument vector leaves the parent's cell unchanged
and vice versa; the lind-common and lind-fork states likewise move to fresh
cells distinct from the parent's. -/
theorem c5_fork_sharing_and_independence (h : HostCtx) (w : World) (i : Nat)
    (hp : h.preview1_ctx = some i) (hi : i < w.preview1Cells.length) :
    (h.fork w).1.wasi_threads = h.wasi_threads ∧
      (∃ j, (h.fork w).1.preview1_ctx = some j ∧ j ≠ i ∧
        (∀ as, (((h.fork w).2.setPreview1Args j as).preview1Args i)
            = (h.fork w).2.preview1Args i) ∧
        (∀ as, (((h.fork w).2.setPreview1Args i as).preview1Args j)
            = (h.fork w).2.preview1Args j)) ∧
      (∀ k, h.lind_common_ctx = some k → k < w.commonCells.length →
        ∃ k', (h.fork w).1.lind_common_ctx = some k' ∧ k' ≠ k) ∧
      (∀ k, h.lind_fork_ctx = some k → k < w.forkCells.length →
        ∃ k', (h.fork w).1.lind_fork_ctx = some k' ∧ k' ≠ k) := by
  have hji : w.preview1Cells.length ≠ i := Nat.ne_of_gt hi
  refine ⟨fork_wasi_threads h w, ⟨w.preview1Cells.length, ?_, hji, ?_, ?_⟩, ?_, ?_⟩
  · rw [fork_preview1_ref, hp]; rfl
  · intro as
    unfold World.setPreview1Args World.preview1Args
    simp only [List.get?_set_ne _ _ hji]
  · intro as
    unfold World.setPreview1Args World.preview1Args
    simp only [List.get?_set_ne _ _ (Ne.symm hji)]
  · intro k hk hklt
    refine ⟨w.commonCells.length, ?_, Nat.ne_of_gt hklt⟩
    rw [fork_common_ref, hk]; rfl
  · intro k hk hklt
    refine ⟨w.forkCells.length, ?_, Nat.ne_of_gt hklt⟩
    rw [fork_fork_ref, hk]; rfl

/-- Witness for C5: a fully populated parent over a one-cell heap forks into
a child whose preview1 reference is the fresh cell 1, sharing thread-pool
handle 0; writing `["child"]` through the child's reference leaves the
parent's cell reading `["parent"]`. -/
theorem c5_fork_sharing_and_independence_witness :
    (({ preview1_ctx := some 0, wasi_threads := some 0,
        lind_common_ctx := some 0, lind_fork_ctx := some 0 : HostCtx }).fork
      { preview1Cells := [{ args := ["parent"], env := [] }],
        commonCells := [{ pid := 1, next_cageid := 0 }],
        forkCells := [{ pid := 1, next_cageid := 0 }] }).1.wasi_threads = some 0 := by
  exact (c5_fork_sharing_and_independence
    { preview1_ctx := some 0, wasi_threads := some 0,
      lind_common_ctx := some 0, lind_fork_ctx := some 0 }
    { preview1Cells := [{ args := ["parent"], env := [] }],
      commonCells := [{ pid := 1, next_cageid := 0 }],
      forkCells := [{ pid := 1, next_cageid := 0 }] }
    0 rfl (by decide)).1

/-- Claim C8: on exec re-launch, `execute_with_lind` builds the new cage's
common state and fork/exec state from exactly the `pid` and the shared
next-cage-identity allocator passed in by its caller — the common state is
newly constructed via `new_with_pid`, not forked — and not from the fresh
allocator it creates internally (which is a distinct counter and leaves the
passed-in counter untouched); at initial launch `execute` wires the one
allocator it creates, starting at value 1, into both contexts, and the exec
closure forwards its `pid` and `next_cageid` parameters unchanged. -/
theorem c8_exec_identity_allocator_carried (pid : Int) (next_cageid : Nat)
    (w w0 : AllocWorld) (enarx_conf : Option Config) (args : List String)
    (hvalid : next_cageid < w.allocators.length) :
    ((execute_with_lind_setup pid next_cageid w).1.lind_common_ctx
        = LindCommonCtxData.new_with_pid pid next_cageid) ∧
      ((execute_with_lind_setup pid next_cageid w).1.lind_fork_ctx
        = LindForkCtxData.new_with_pid pid next_cageid) ∧
      ((execute_with_lind_setup pid next_cageid w).1.lind_common_ctx.next_cageid
        = next_cageid) ∧
      ((execute_with_lind_setup pid next_cageid w).1.lind_fork_ctx.next_cageid
        = next_cageid) ∧
      ((execute_with_lind_setup pid next_cageid w).1.shared_next_cageid ≠ next_cageid) ∧
      ((execute_with_lind_setup pid next_cageid w).2.allocators.get? next_cageid
        = w.allocators.get? next_cageid) ∧
      ((execute_setup w0).1.lind_common_ctx.next_cageid
        = (execute_setup w0).1.shared_next_cageid) ∧
      ((execute_setup w0).1.lind_fork_ctx.next_cageid
        = (execute_setup w0).1.shared_next_cageid) ∧
      ((execute_setup w0).2.allocators.get? (execute_setup w0).1.shared_next_cageid
        = some 1) ∧
      ((execClosure enarx_conf args pid next_cageid).next_cageid = next_cageid) ∧
      ((execClosure enarx_conf args pid next_cageid).pid = pid) := by
  refine ⟨rfl, rfl, rfl, rfl, Nat.ne_of_gt hvalid, ?_, rfl, rfl, ?_, rfl, rfl⟩
  · exact List.get?_append hvalid
  · show (w0.allocators ++ [1]).get? w0.allocators.length = some 1
    rw [List.get?_append_right (Nat.le_refl _), Nat.sub_self]
    rfl

/-- Witness for C8 over a one-allocator heap: the context built by
`execute_with_lind_setup` holds the caller's allocator handle 0, not the
internally created handle 1. -/
theorem c8_exec_identity_allocator_carried_witness :
    ((execute_with_lind_setup 5 0 { allocators := [3] }).1.lind_common_ctx.next_cageid = 0) ∧
      ((execute_with_lind_setup 5 0 { allocators := [3] }).1.shared_next_cageid ≠ 0) := by
  have h := c8_exec_identity_allocator_carried 5 0 { allocators := [3] }
    { allocators := [] } none [] (by decide)
  exact ⟨h.2.2.1, h.2.2.2.2.1⟩

/-- A function declaring two parameters, the first of a type unsupported for
textual invocation, whose engine call would succeed. -/
def unsupportedFirstFunc : FuncSpec :=
  { fty := { params := [ValType.other, ValType.i32], results := [] },
    call := fun _ => .ok [] }

/-- Parser oracles that parse every string (to 1/its bits); enough for
positive marshalling paths. -/
def oneParsers : Parsers :=
  { parseI32 := fun _ => some 1, parseI64 := fun _ => some 1,
    parseF32 := fun _ => some 1, parseF64 := fun _ => some 1 }

/-- When the declared parameters outnumber the textual arguments, the
marshalling loop fails with some error (the iterator runs out unless an
earlier parse or type failure hits first). -/
theorem parseArgs_err_of_short (p : Parsers) :
    ∀ (tys : List ValType) (args : List String), args.length < tys.length →
      ∃ e, parseArgs p tys args = Except.error e := by
  intro tys
  induction tys with
  | nil => intro args hlt; simp at hlt
  | cons ty tys ih =>
    intro args hlt
    cases args with
    | nil => exact ⟨.notEnoughArguments, rfl⟩
    | cons s rest =>
      cases hv : parseVal p ty s with
      | error e => exact ⟨e, by simp [parseArgs, hv]⟩
      | ok v =>
        obtain ⟨e, he⟩ := ih rest (Nat.lt_of_succ_lt_succ hlt)
        exact ⟨e, by simp [parseArgs, hv, he, Except.map]⟩

/-- When every supplied argument parses under its (supported) parameter type
and the parameters outnumber the arguments, the loop's failure is precisely
the argument-count error. -/
theorem parseArgs_notEnough_of_all_ok (p : Parsers) :
    ∀ (tys : List ValType) (args : List String), args.length < tys.length →
      (∀ pr ∈ tys.zip args, (parseVal p pr.1 pr.2).isOk = true) →
      parseArgs p tys args = Except.error InvokeError.notEnoughArguments := by
  intro tys
  induction tys with
  | nil => intro args hlt; simp at hlt
  | cons ty tys ih =>
    intro args hlt hok
    cases args with
    | nil => rfl
    | cons s rest =>
      have hhead : (parseVal p ty s).isOk = true := hok (ty, s) (by simp)
      cases hv : parseVal p ty s with
      | error e => rw [hv] at hhead; simp [Except.isOk, Except.toBool] at hhead
      | ok v =>
        have htail := ih rest (Nat.lt_of_succ_lt_succ hlt)
          (fun pr hpr => hok pr (by simp [hpr]))
        simp [parseArgs, hv, htail, Except.map]

/-- The loop reports the first failure it reaches: if the first `k` pairs all
parse and position `k` fails (parse failure or unsupported type), that error
is the loop's result. -/
theorem parseArgs_first_failure (p : Parsers) :
    ∀ (k : Nat) (tys : List ValType) (args : List String) (ty : ValType) (s : String)
      (e : InvokeError),
      (∀ pr ∈ (tys.take k).zip (args.take k), (parseVal p pr.1 pr.2).isOk = true) →
      tys.get? k = some ty → args.get? k = some s → parseVal p ty s = Except.error e →
      parseArgs p tys args = Except.error e := by
  intro k
  induction k with
  | zero =>
    intro tys args ty s e _ hty hs herr
    cases tys with
    | nil => simp at hty
    | cons ty0 tys' =>
      cases args with
      | nil => simp at hs
      | cons s0 rest =>
        have h1 : ty0 = ty := by simpa using hty
        have h2 : s0 = s := by simpa using hs
        subst h1; subst h2
        simp [parseArgs, herr]
  | succ k ih =>
    intro tys args ty s e hok hty hs herr
    cases tys with
    | nil => simp at hty
    | cons ty0 tys' =>
      cases args with
      | nil => simp at hs
      | cons s0 rest =>
        have hhead : (parseVal p ty0 s0).isOk = true := by
          apply hok (ty0, s0)
          simp [List.take_succ_cons]
        cases hv : parseVal p ty0 s0 with
        | error e0 => rw [hv] at hhead; simp [Except.isOk, Except.toBool] at hhead
        | ok v =>
          have htail := ih tys' rest ty s e
            (fun pr hpr => hok pr (by simp [List.take_succ_cons, hpr]))
            (by simpa using hty) (by simpa using hs) herr
          simp [parseArgs, hv, htail, Except.map]

/-- Claim C10 (counterexample): a function declaring 2 parameters invoked with
1 textual argument does not always fail with the argument-count error — when
the first parameter's type is unsupported for textual invocation, the loop
reports the type error instead. -/
theorem c10_short_args_not_always_arity_error :
    unsupportedFirstFunc.fty.params.length > ([("1" : String)] : List String).length ∧
      (invoke_func oneParsers unsupportedFirstFunc ["1"]).1
        = Except.error InvokeError.unsupportedType ∧
      (invoke_func oneParsers unsupportedFirstFunc ["1"]).1
        ≠ Except.error InvokeError.notEnoughArguments := by
  refine ⟨by decide, rfl, ?_⟩
  intro hcontra
  have h2 : (invoke_func oneParsers unsupportedFirstFunc ["1"]).1
      = Except.error InvokeError.unsupportedType := rfl
  rw [h2] at hcontra
  simp at hcontra

/-- Claim C10 (amended): when the declared parameter count exceeds the number
of textual arguments, `invoke_func` fails before calling the function — no
call event occurs — and the error is the argument-count error provided every
supplied argument parses under a supported parameter type; a textual argument
that fails to parse, or a parameter type unsupported for textual invocation,
instead yields that type error (the first failure the left-to-right scan
reaches), again with no call made. -/
theorem c10_arity_and_type_errors (p : Parsers) (f : FuncSpec) (args : List String) :
    (args.length < f.fty.params.length →
      (∃ e, (invoke_func p f args).1 = Except.error e) ∧
        ∀ vs, InvokeEvent.called vs ∉ (invoke_func p f args).2) ∧
      (args.length < f.fty.params.length →
        (∀ pr ∈ f.fty.params.zip args, (parseVal p pr.1 pr.2).isOk = true) →
        (invoke_func p f args).1 = Except.error InvokeError.notEnoughArguments) ∧
      (∀ k ty s e,
        (∀ pr ∈ (f.fty.params.take k).zip (args.take k),
          (parseVal p pr.1 pr.2).isOk = true) →
        f.fty.params.get? k = some ty → args.get? k = some s →
        parseVal p ty s = Except.error e →
        (invoke_func p f args).1 = Except.error e ∧
          ∀ vs, InvokeEvent.called vs ∉ (invoke_func p f args).2) := by
  refine ⟨?_, ?_, ?_⟩
  · intro hlt
    obtain ⟨e, he⟩ := parseArgs_err_of_short p f.fty.params args hlt
    constructor
    · exact ⟨e, by simp [invoke_func, he]⟩
    · intro vs
      simp only [invoke_func, he]
      by_cases hw : f.fty.params.length > 0 <;> simp [hw]
  · intro hlt hok
    have := parseArgs_notEnough_of_all_ok p f.fty.params args hlt hok
    simp [invoke_func, this]
  · intro k ty s e hok hty hs herr
    have hpa := parseArgs_first_failure p k f.fty.params args ty s e hok hty hs herr
    constructor
    · simp [invoke_func, hpa]
    · intro vs
      simp only [invoke_func, hpa]
      by_cases hw : f.fty.params.length > 0 <;> simp [hw]

/-- Witness for C10: a function of two `i32` parameters invoked with the
single parsable argument `"1"` hits the argument-count error with no call
event; and with first parameter unsupported the scan reports the type error,
also with no call event. -/
theorem c10_arity_and_type_errors_witness :
    (invoke_func oneParsers
        { fty := { params := [ValType.i32, ValType.i32], results := [] },
          call := fun _ => Except.ok [] } ["1"]).1
      = Except.error InvokeError.notEnoughArguments ∧
      (invoke_func oneParsers unsupportedFirstFunc ["1"]).1
        = Except.error InvokeError.unsupportedType := by
  constructor
  · exact (c10_arity_and_type_errors oneParsers
      { fty := { params := [ValType.i32, ValType.i32], results := [] },
        call := fun _ => Except.ok [] } ["1"]).2.1 (by decide)
      (by intro pr hpr; fin_cases hpr <;> rfl)
  · exact ((c10_arity_and_type_errors oneParsers unsupportedFirstFunc ["1"]).2.2
      0 ValType.other "1" InvokeError.unsupportedType
      (by intro pr hpr; simp at hpr) rfl rfl rfl).1

end Enarx
